import Mathlib

/-!
Verification development for the `finaltarsbot` Telegram bot.

The definitions below are a shallow embedding of the Python source:

* `bot/db/user_queries.py` — quota ledger (conditional decrement updates,
  premium upgrade/downgrade, scheduled resets);
* `bot/handlers/ai_chat.py` — AI chat flow (`call_my_ai_api` retry loop,
  `start_ai_chat`, `process_ai_request_task`, cache-key normalization
  `prompt.lower().strip()[:100]`);
* `bot/handlers/pdf_search.py` — PDF search flow (`start_search`,
  `send_pdf_link`);
* `bot/handlers/user_stop_menu.py` and `bot/handlers/__init__.py` — the
  dispatch router and its registration order;
* `bot/utils/scheduler.py` — the daily scheduled sweep `run_daily_tasks`.

Strings are modelled as `List Char`; Python `str.lower` is modelled by its
charwise action on basic latin letters (which is also all the inputs the
claims exercise), and `str.strip` by removal of whitespace characters from
both ends.  Database timestamps are modelled as an abstract integer clock
counted in days.
-/

/-- Python `str.lower`, charwise, on basic latin letters: code points 65..90
are shifted by 32, every other character is returned unchanged. -/
def pyToLower (c : Char) : Char :=
  if h : 65 ≤ c.toNat ∧ c.toNat ≤ 90 then
    Char.ofNatAux (c.toNat + 32) (Or.inl (by omega))
  else c

/-- Whitespace characters removed by Python `str.strip` (ASCII range):
space (32), tab (9), newline (10), carriage return (13), vertical tab (11),
form feed (12). -/
def isPySpace (c : Char) : Bool :=
  c.toNat = 32 || c.toNat = 9 || c.toNat = 10 || c.toNat = 13 ||
    c.toNat = 11 || c.toNat = 12

/-- Python `str.lower` on a whole string. -/
def pyLower (s : List Char) : List Char := s.map pyToLower

/-- Removes leading whitespace (the one-sided core of Python `str.strip`). -/
def dropLeading : List Char → List Char
  | [] => []
  | c :: t => if isPySpace c then dropLeading t else c :: t

/-- Python `str.strip`: removes whitespace from both ends. -/
def pyStrip (s : List Char) : List Char :=
  ((dropLeading s).reverse |> dropLeading).reverse

/-- The cache-key normalization applied by `process_ai_request_task`
(`bot/handlers/ai_chat.py`, line 231): `prompt.lower().strip()[:100]`. -/
def normalizeKey (s : List Char) : List Char :=
  (pyStrip (pyLower s)).take 100

/-- The full Redis cache key built in `process_ai_request_task`:
`f"ai_cache:{prompt.lower().strip()[:100]}"`. -/
def cacheKey (s : List Char) : List Char :=
  ("ai_cache:".data) ++ normalizeKey s

-- Basic facts about the normalization building blocks.

theorem pyToLower_eq_self (c : Char) (h : ¬(65 ≤ c.toNat ∧ c.toNat ≤ 90)) :
    pyToLower c = c := by
  unfold pyToLower
  exact dif_neg h

theorem pyToLower_toNat (c : Char) :
    (pyToLower c).toNat =
      if 65 ≤ c.toNat ∧ c.toNat ≤ 90 then c.toNat + 32 else c.toNat := by
  unfold pyToLower
  split
  · rfl
  · rfl

theorem pyToLower_idem (c : Char) : pyToLower (pyToLower c) = pyToLower c := by
  by_cases h : 65 ≤ c.toNat ∧ c.toNat ≤ 90
  · have hn : (pyToLower c).toNat = c.toNat + 32 := by
      rw [pyToLower_toNat, if_pos h]
    exact pyToLower_eq_self _ (by omega)
  · rw [pyToLower_eq_self c h]
    exact pyToLower_eq_self c h

theorem isPySpace_pyToLower (c : Char) : isPySpace (pyToLower c) = isPySpace c := by
  by_cases h : 65 ≤ c.toNat ∧ c.toNat ≤ 90
  · have hn : (pyToLower c).toNat = c.toNat + 32 := by
      rw [pyToLower_toNat, if_pos h]
    have hA : isPySpace (pyToLower c) = false := by
      unfold isPySpace
      rw [hn]
      simp only [Bool.or_eq_false_iff, decide_eq_false_iff_not]
      omega
    have hB : isPySpace c = false := by
      unfold isPySpace
      simp only [Bool.or_eq_false_iff, decide_eq_false_iff_not]
      omega
    rw [hA, hB]
  · rw [pyToLower_eq_self c h]

theorem dropLeading_head (l : List Char) :
    ∀ c t, dropLeading l = c :: t → isPySpace c = false := by
  induction l with
  | nil => intro c t h; cases h
  | cons a l ih =>
      intro c t h
      unfold dropLeading at h
      by_cases ha : isPySpace a
      · rw [if_pos ha] at h
        exact ih c t h
      · rw [if_neg ha] at h
        cases h
        exact Bool.eq_false_iff.mpr ha

theorem dropLeading_eq_self (l : List Char)
    (h : ∀ c t, l = c :: t → isPySpace c = false) : dropLeading l = l := by
  cases l with
  | nil => rfl
  | cons c t =>
      unfold dropLeading
      rw [if_neg]
      rw [h c t rfl]
      simp

theorem dropLeading_idem (l : List Char) :
    dropLeading (dropLeading l) = dropLeading l :=
  dropLeading_eq_self _ (dropLeading_head l)

theorem dropLeading_append_singleton (c : Char) (hc : isPySpace c = false) :
    ∀ u : List Char, dropLeading (u ++ [c]) = dropLeading u ++ [c] := by
  intro u
  induction u with
  | nil =>
      simp only [List.nil_append]
      unfold dropLeading
      rw [hc]
      simp
  | cons a u ih =>
      show dropLeading (a :: (u ++ [c])) = dropLeading (a :: u) ++ [c]
      unfold dropLeading
      by_cases ha : isPySpace a
      · rw [if_pos ha, if_pos ha]
        exact ih
      · rw [if_neg ha, if_neg ha]
        simp

theorem mem_dropLeading {c : Char} {l : List Char} (h : c ∈ dropLeading l) :
    c ∈ l := by
  induction l with
  | nil => cases h
  | cons a l ih =>
      unfold dropLeading at h
      by_cases ha : isPySpace a
      · rw [if_pos ha] at h
        exact List.mem_cons_of_mem a (ih h)
      · rw [if_neg ha] at h
        exact h

theorem length_dropLeading (l : List Char) :
    (dropLeading l).length ≤ l.length := by
  induction l with
  | nil => simp [dropLeading]
  | cons a l ih =>
      unfold dropLeading
      by_cases ha : isPySpace a
      · rw [if_pos ha]
        simp
        omega
      · rw [if_neg ha]

theorem pyStrip_idem (l : List Char) : pyStrip (pyStrip l) = pyStrip l := by
  unfold pyStrip
  generalize hm : dropLeading l = m
  cases m with
  | nil => simp [dropLeading]
  | cons c t =>
      have hc : isPySpace c = false := dropLeading_head l c t hm
      rw [List.reverse_cons, dropLeading_append_singleton c hc]
      rw [List.reverse_append, List.reverse_singleton, List.singleton_append]
      have hds : dropLeading (c :: (dropLeading t.reverse).reverse) =
          c :: (dropLeading t.reverse).reverse := by
        apply dropLeading_eq_self
        intro c2 t2 h2
        cases h2
        exact hc
      rw [hds]
      rw [List.reverse_cons, List.reverse_reverse,
        dropLeading_append_singleton c hc, dropLeading_idem]
      rw [List.reverse_append, List.reverse_singleton, List.singleton_append]

/-- The list consists of whitespace only. -/
def wsOnly (w : List Char) : Prop := ∀ c ∈ w, isPySpace c = true

theorem dropLeading_ws_append {w : List Char} (hw : wsOnly w) (r : List Char) :
    dropLeading (w ++ r) = dropLeading r := by
  induction w with
  | nil => simp
  | cons a u ih =>
      show dropLeading (a :: (u ++ r)) = dropLeading r
      simp only [dropLeading]
      rw [if_pos (hw a (List.mem_cons_self a u))]
      exact ih (fun c hc => hw c (List.mem_cons_of_mem a hc))

theorem dropLeading_ws {w : List Char} (hw : wsOnly w) : dropLeading w = [] := by
  have h := dropLeading_ws_append hw []
  simpa using h

theorem wsOnly_reverse {w : List Char} (hw : wsOnly w) : wsOnly w.reverse := by
  intro c hc
  exact hw c (List.mem_reverse.mp hc)

theorem pyStrip_padded (u a v : List Char) (hu : wsOnly u) (hv : wsOnly v)
    (ha1 : ∀ c t, a = c :: t → isPySpace c = false)
    (ha2 : ∀ c t, a.reverse = c :: t → isPySpace c = false) :
    pyStrip (u ++ a ++ v) = a := by
  unfold pyStrip
  rw [List.append_assoc, dropLeading_ws_append hu]
  cases a with
  | nil =>
      rw [List.nil_append, dropLeading_ws hv]
      simp [dropLeading]
  | cons c t =>
      have hc : isPySpace c = false := ha1 c t rfl
      have h1 : dropLeading ((c :: t) ++ v) = (c :: t) ++ v := by
        show dropLeading (c :: (t ++ v)) = c :: (t ++ v)
        unfold dropLeading
        rw [hc]
        simp
      rw [h1, List.reverse_append, dropLeading_ws_append (wsOnly_reverse hv)]
      rw [dropLeading_eq_self _ ha2, List.reverse_reverse]

theorem map_eq_self_of_mem {f : Char → Char} {l : List Char}
    (h : ∀ c ∈ l, f c = c) : l.map f = l := by
  induction l with
  | nil => rfl
  | cons a t ih =>
      simp only [List.map_cons]
      rw [h a (List.mem_cons_self a t), ih (fun c hc => h c (List.mem_cons_of_mem a hc))]

theorem mem_pyStrip {c : Char} {l : List Char} (h : c ∈ pyStrip l) : c ∈ l := by
  unfold pyStrip at h
  rw [List.mem_reverse] at h
  have h2 := mem_dropLeading h
  rw [List.mem_reverse] at h2
  exact mem_dropLeading h2

theorem length_pyStrip (l : List Char) : (pyStrip l).length ≤ l.length := by
  unfold pyStrip
  calc ((dropLeading (dropLeading l).reverse).reverse).length
      = (dropLeading (dropLeading l).reverse).length := List.length_reverse _
    _ ≤ (dropLeading l).reverse.length := length_dropLeading _
    _ = (dropLeading l).length := List.length_reverse _
    _ ≤ l.length := length_dropLeading l

theorem pyLower_pyStrip_pyLower (x : List Char) :
    pyLower (pyStrip (pyLower x)) = pyStrip (pyLower x) := by
  apply map_eq_self_of_mem
  intro c hc
  have hmem : c ∈ pyLower x := mem_pyStrip hc
  unfold pyLower at hmem
  rcases List.mem_map.mp hmem with ⟨d, _, hd⟩
  rw [← hd]
  exact pyToLower_idem d

/-!
Quota ledger: `bot/db/user_queries.py`.  A row of the `users` table.
Timestamps (`premium_expiry_date`, `pdf_downloads_reset_date`,
`last_active`) are integers on an abstract clock counted in days, matching
the `INTERVAL` arithmetic of the SQL (`+ INTERVAL '30 days'` becomes
`+ 30`).
-/

structure UserRec where
  user_id : Nat
  username : Option String := none
  selected_class : String := "none"
  is_premium : Bool := false
  premium_expiry_date : Option Int := none
  ai_limit_remaining : Int := 10
  pdf_downloads_remaining : Int := 10
  pdf_downloads_reset_date : Option Int := none
  last_active : Int := 0
deriving DecidableEq, Repr

/-- `decrement_ai_limit` (`user_queries.py` lines 112-128): the SQL
`UPDATE users SET ai_limit_remaining = ai_limit_remaining - 1, last_active =
CURRENT_TIMESTAMP WHERE user_id = $1 AND ai_limit_remaining > 0` is a single
conditional update; the function returns `True` exactly when one row was
updated. -/
def decrement_ai_limit (now : Int) (u : UserRec) : UserRec × Bool :=
  if u.ai_limit_remaining > 0 then
    ({ u with ai_limit_remaining := u.ai_limit_remaining - 1, last_active := now }, true)
  else (u, false)

/-- `decrement_pdf_download_limit` (`user_queries.py` lines 94-110): the same
conditional-update shape on `pdf_downloads_remaining`. -/
def decrement_pdf_download_limit (now : Int) (u : UserRec) : UserRec × Bool :=
  if u.pdf_downloads_remaining > 0 then
    ({ u with pdf_downloads_remaining := u.pdf_downloads_remaining - 1, last_active := now }, true)
  else (u, false)

/-- `upgrade_user_to_premium` (`user_queries.py` lines 132-160): sets the
premium flag, expiry = now + days, premium ceilings (100 AI / 50 PDF), and
clears the PDF reset date. -/
def upgrade_user_to_premium (now : Int) (days : Int) (u : UserRec) : UserRec :=
  { u with is_premium := true,
           premium_expiry_date := some (now + days),
           ai_limit_remaining := 100,
           pdf_downloads_remaining := 50,
           pdf_downloads_reset_date := none }

/-- `end_user_plan` (`user_queries.py` lines 183-207): clears premium, resets
both counters to the free ceilings (10/10) and starts a fresh 30-day PDF
reset window. -/
def end_user_plan (now : Int) (u : UserRec) : UserRec :=
  { u with is_premium := false,
           premium_expiry_date := none,
           ai_limit_remaining := 10,
           pdf_downloads_remaining := 10,
           pdf_downloads_reset_date := some (now + 30) }

/-- `reset_daily_limits` (`user_queries.py` lines 248-266), restricted to one
row: `SET ai_limit_remaining = CASE WHEN is_premium = TRUE THEN 100 ELSE 10
END` — it touches only the AI counter. -/
def reset_daily_limits_row (u : UserRec) : UserRec :=
  { u with ai_limit_remaining := if u.is_premium then 100 else 10 }

/-- `reset_free_user_pdf_downloads` (`user_queries.py` lines 315-335):
`SET pdf_downloads_remaining = 10, pdf_downloads_reset_date = CURRENT_TIMESTAMP
+ INTERVAL '30 days' WHERE user_id = $1 AND is_premium = FALSE`. -/
def reset_free_user_pdf_downloads (now : Int) (u : UserRec) : UserRec :=
  if u.is_premium = false then
    { u with pdf_downloads_remaining := 10,
             pdf_downloads_reset_date := some (now + 30) }
  else u

/-- Membership test of `get_expired_premium_users` (`user_queries.py`
lines 267-291): premium, expiry non-null and in the past. -/
def isExpiredPremium (now : Int) (u : UserRec) : Bool :=
  u.is_premium &&
    (match u.premium_expiry_date with
     | some d => decide (d < now)
     | none => false)

/-- Membership test of `get_expired_free_users` (`user_queries.py`
lines 294-313): free, reset date non-null and in the past. -/
def isExpiredFree (now : Int) (u : UserRec) : Bool :=
  !u.is_premium &&
    (match u.pdf_downloads_reset_date with
     | some d => decide (d < now)
     | none => false)

/-- The per-user effect of `run_daily_tasks` (`bot/utils/scheduler.py`
lines 16-95), in the order the scheduler performs its steps: step 3
downgrades expired premium users via `end_user_plan`, step 4 (computed after
step 3 finished) resets expired free users, step 5 resets every user's daily
AI limit. -/
def run_daily_tasks_user (now : Int) (u : UserRec) : UserRec :=
  let u1 := if isExpiredPremium now u then end_user_plan now u else u
  let u2 := if isExpiredFree now u1 then reset_free_user_pdf_downloads now u1 else u1
  reset_daily_limits_row u2

/-- One debit operation in a trace: which resource is debited and the value
the database clock has when the update runs. -/
inductive DebitOp where
  | ai (now : Int)
  | pdf (now : Int)
deriving DecidableEq, Repr

/-- Applies one atomic debit to the row (dropping the success flag). -/
def applyDebit (u : UserRec) : DebitOp → UserRec
  | .ai now => (decrement_ai_limit now u).1
  | .pdf now => (decrement_pdf_download_limit now u).1

/-- Applies a sequence of atomic debits.  Because each SQL debit is a single
conditional update, any interleaving of concurrent debits seen by the
database is some such sequence. -/
def applyDebits (ops : List DebitOp) (u : UserRec) : UserRec :=
  ops.foldl applyDebit u

/-!
Completion Adapter: `call_my_ai_api` (`bot/handlers/ai_chat.py` lines
70-172).  The external Gemini call is modelled by an oracle giving the
outcome of each attempt; the function itself is the retry loop
(`max_retries = 3`, sleep `2 ** attempt` before each retry) followed by the
`except` classification of the final error.
-/

/-- Tests whether the second list starts with the first
(Python `str.startswith`). -/
def startsWithList : List Char → List Char → Bool
  | [], _ => true
  | _ :: _, [] => false
  | a :: p, b :: l => (a = b) && startsWithList p l

/-- Python `needle in hay` substring test. -/
def containsSub (needle : List Char) : List Char → Bool
  | [] => needle.isEmpty
  | c :: t => startsWithList needle (c :: t) || containsSub needle t

def serviceUnavailableMsg : List Char :=
  ("❌ <b>AI Service Unavailable</b>\n\nThe AI service is currently unavailable. Please try again later or contact support.").data

def timeoutMsg : List Char :=
  ("⏱️ <b>Response Timeout</b>\n\nThe AI took too long to respond. Please try a simpler question.").data

def rateLimitedMsg : List Char :=
  ("❌ <b>Service Temporarily Unavailable</b>\n\nThe AI service has reached its usage limit. Please try again in a few minutes.").data

def rejectedMsg : List Char :=
  ("⚠️ <b>Content Policy Violation</b>\n\nYour message was flagged by the content filter. Please rephrase your question and try again.").data

def genericErrorMsg : List Char :=
  ("❌ <b>AI Error</b>\n\nSorry, I encountered an error processing your request. Please try again or rephrase your question.").data

def truncationNotice : List Char :=
  ("\n\n<i>(Your message was truncated due to length limits)</i>").data

def emptyResponseError : List Char :=
  ("Empty response from AI model").data

/-- The outcome of one `generate_content_async` attempt, as observed through
`asyncio.wait_for`: a response carrying text, a response with no usable text,
a timeout, or some other raised exception with its message. -/
inductive AttemptOutcome where
  | success (text : List Char)
  | empty
  | timeout
  | failure (msg : List Char)

/-- How the `for attempt in range(max_retries)` loop terminates: returning
text, re-raising the final `asyncio.TimeoutError`, or raising an exception
(`ValueError("Empty response from AI model")` or the last attempt's error). -/
inductive LoopExit where
  | ok (text : List Char)
  | timedOut
  | errored (msg : List Char)

structure LoopOut where
  exit : LoopExit
  attemptsMade : Nat
  sleeps : List Nat

/-- The retry loop of `call_my_ai_api` (lines 112-145): `attempt` counts from
0; a failed attempt with `attempt < max_retries - 1` sleeps `2 ** attempt`
seconds and retries, the last failed attempt raises. -/
def attemptLoop (outcomes : Nat → AttemptOutcome) (attempt : Nat) : LoopOut :=
  match outcomes attempt with
  | .success t => ⟨.ok t, attempt + 1, []⟩
  | .empty =>
      if h : attempt < 2 then
        let r := attemptLoop outcomes (attempt + 1)
        ⟨r.exit, r.attemptsMade, 2 ^ attempt :: r.sleeps⟩
      else ⟨.errored emptyResponseError, attempt + 1, []⟩
  | .timeout =>
      if h : attempt < 2 then
        let r := attemptLoop outcomes (attempt + 1)
        ⟨r.exit, r.attemptsMade, 2 ^ attempt :: r.sleeps⟩
      else ⟨.timedOut, attempt + 1, []⟩
  | .failure msg =>
      if h : attempt < 2 then
        let r := attemptLoop outcomes (attempt + 1)
        ⟨r.exit, r.attemptsMade, 2 ^ attempt :: r.sleeps⟩
      else ⟨.errored msg, attempt + 1, []⟩
termination_by 3 - attempt
decreasing_by all_goals omega

/-- The spec's error taxonomy, read off the branch of `call_my_ai_api` that
produced the returned string. -/
inductive ApiClass where
  | ok
  | serviceUnavailable
  | timedOut
  | rateLimited
  | rejected
  | genericError
deriving DecidableEq, Repr

structure ApiResult where
  reply : List Char
  classification : ApiClass
  attemptsMade : Nat
  sleeps : List Nat
  adminNotified : Bool

/-- `call_my_ai_api` (`ai_chat.py` lines 70-172). `modelReady` is the `MODEL`
initialization check; `prompt` is `new_prompt` (truncated to
`MAX_INPUT_CHARS = 1000` before sending, with a notice appended to a
successful reply); the classification of an error message scans
`str(e).lower()` for `quota`/`limit` (admin alert), `quota`/`resource`
(rate-limited), then `safety`/`blocked` (policy rejection). -/
def call_my_ai_api (modelReady : Bool) (prompt : List Char)
    (outcomes : Nat → AttemptOutcome) : ApiResult :=
  if modelReady = false then
    ⟨serviceUnavailableMsg, .serviceUnavailable, 0, [], false⟩
  else
    let truncNotice := if prompt.length > 1000 then truncationNotice else []
    let r := attemptLoop outcomes 0
    match r.exit with
    | .ok t => ⟨pyStrip t ++ truncNotice, .ok, r.attemptsMade, r.sleeps, false⟩
    | .timedOut => ⟨timeoutMsg, .timedOut, r.attemptsMade, r.sleeps, false⟩
    | .errored msg =>
        let m := pyLower msg
        let notified := containsSub ("quota").data m || containsSub ("limit").data m
        if containsSub ("quota").data m || containsSub ("resource").data m then
          ⟨rateLimitedMsg, .rateLimited, r.attemptsMade, r.sleeps, notified⟩
        else if containsSub ("safety").data m || containsSub ("blocked").data m then
          ⟨rejectedMsg, .rejected, r.attemptsMade, r.sleeps, notified⟩
        else
          ⟨genericErrorMsg, .genericError, r.attemptsMade, r.sleeps, notified⟩

/-!
Session store and flow handlers.  `bot/fsm/states.py` defines the closed
state enums (`None`, i.e. no FSM state, is `Idle` here); the aiogram
`FSMContext` couples a state with a key-value payload; `state.clear()`
resets both, `state.set_state` changes only the state, `state.update_data`
merges keys into the payload.
-/

inductive SessionState where
  | Idle
  | AwaitingClassSelection
  | AwaitingSearchQuery
  | AwaitingAIPrompt
  | AwaitingScreenshot
  | AwaitingBroadcastMessage
  | AddPDF_AwaitingTitle
  | AddPDF_AwaitingLink
  | AddPDF_AwaitingClass
  | AddPDF_AwaitingFree
  | AddPDF_AwaitingKeywords
  | DeletePDF_AwaitingConfirmation
deriving DecidableEq, Repr

/-- One conversation turn kept in the `history` payload entry: the flag is
`true` for a user turn, `false` for a model turn. -/
abbrev HistEntry := Bool × List Char

/-- The transient payload of an aiogram `FSMContext`: ordered key-value
entries, read through the first match. -/
abbrev Payload := List (String × List HistEntry)

instance : Inhabited UserRec := ⟨{ user_id := 0 }⟩

structure Session where
  state : SessionState
  payload : Payload
deriving DecidableEq

/-- `state.update_data(key=value)`: merges one key into the payload. -/
def payloadSet (p : Payload) (k : String) (v : List HistEntry) : Payload :=
  (k, v) :: p.filter (fun e => !(e.1 == k))

/-- `fsm_data.get(key, default)`. -/
def payloadGet (p : Payload) (k : String) : Option (List HistEntry) :=
  (p.find? (fun e => e.1 == k)).map (fun e => e.2)

/-- `state.clear()`: state becomes `None` (Idle) and the payload is
discarded. -/
def stateClear (_s : Session) : Session := ⟨.Idle, []⟩

/-- Result category of a flow-entry handler (which user-facing message the
handler answered with). -/
inductive StartOutcome where
  | notRegistered
  | noClassSelected
  | limitReached
  | entered
deriving DecidableEq, Repr

/-- `start_ai_chat` (`bot/handlers/ai_chat.py` lines 175-211): clears the
session, refuses unregistered users, refuses non-premium users whose
`ai_limit_remaining <= 0`, otherwise enters `AwaitingAIPrompt` and seeds
`history=[]`.  The handler performs no quota debit on any path, so the user
row is returned unchanged. -/
def start_ai_chat (sess : Session) (u : Option UserRec) :
    Session × UserRec × StartOutcome :=
  let s1 := stateClear sess
  match u with
  | none => (s1, default, .notRegistered)
  | some user =>
      if user.is_premium = false ∧ user.ai_limit_remaining ≤ 0 then
        (s1, user, .limitReached)
      else
        ({ state := .AwaitingAIPrompt, payload := payloadSet s1.payload ("history") [] },
         user, .entered)

/-- `start_search` (`bot/handlers/pdf_search.py` lines 76-132): refuses
unregistered users, users without a selected class, and non-premium users
whose `pdf_downloads_remaining <= 0`; otherwise calls only
`state.set_state(UserFlow.AwaitingSearchQuery)` — the payload is not
cleared and no debit occurs. -/
def start_search (sess : Session) (u : Option UserRec) :
    Session × UserRec × StartOutcome :=
  match u with
  | none => (sess, default, .notRegistered)
  | some user =>
      if user.selected_class = "none" then (sess, user, .noClassSelected)
      else if user.is_premium = false ∧ user.pdf_downloads_remaining ≤ 0 then
        (sess, user, .limitReached)
      else ({ sess with state := .AwaitingSearchQuery }, user, .entered)

/-- `send_pdf_link` (`bot/handlers/pdf_search.py` lines 323-393): for a free
user the handler refuses at 0 downloads remaining, otherwise attempts the
atomic decrement and stops if it reports failure; a premium user skips the
whole quota block.  Returns the updated row, the number of
`decrement_pdf_download_limit` calls performed, and whether a link was
sent. -/
def send_pdf_link (now : Int) (u : UserRec) (link : Option (List Char)) :
    UserRec × Nat × Bool :=
  if u.is_premium = false then
    if u.pdf_downloads_remaining ≤ 0 then (u, 0, false)
    else
      let d := decrement_pdf_download_limit now u
      if d.2 = false then (d.1, 1, false)
      else (d.1, 1, link.isSome)
  else (u, 0, link.isSome)

/-!
Response cache and the background task `process_ai_request_task`
(`bot/handlers/ai_chat.py` lines 216-308).
-/

/-- The Redis AI cache, observed through `get`/`set`: `set` prepends and
`get` reads the first match, which agrees with overwrite-on-set. -/
abbrev Cache := List (List Char × List Char)

def cacheGet (c : Cache) (k : List Char) : Option (List Char) :=
  (c.find? (fun e => e.1 == k)).map (fun e => e.2)

def cacheSet (c : Cache) (k v : List Char) : Cache := (k, v) :: c

/-- The error check of `process_ai_request_task` line 260:
`ai_response.startswith("❌") or ai_response.startswith("⚠️") or
ai_response.startswith("⏱️")`. -/
def errorFlagged (r : List Char) : Bool :=
  startsWithList ("❌").data r || startsWithList ("⚠️").data r ||
    startsWithList ("⏱️").data r

def cachedSuffix : List Char := ("\n\n<i>💾 (Cached response)</i>").data

def remainingPreamble : List Char := ("\n\n<i>💬 Queries remaining today: ").data

structure TaskResult where
  user : UserRec
  session : Session
  cache : Cache
  reply : List Char
  debitAttempts : Nat
  debitSucceeded : Bool
  servedFromCache : Bool
deriving DecidableEq

/-- The cache-miss body of `process_ai_request_task` (everything after the
cache check, lines 245-301): call the adapter, stop without debit on a
flagged error reply, otherwise debit a non-premium user once via the atomic
conditional update, reply (with the remaining-quota footer for free users),
append the two new turns to the `history` payload entry (keeping the last
`MAX_HISTORY_MESSAGES * 2 = 8`), and write the response to the cache. -/
def processAiMiss (now : Int) (prompt : List Char) (sess : Session)
    (u : UserRec) (cache : Cache) (modelReady : Bool)
    (outcomes : Nat → AttemptOutcome) : TaskResult :=
  let history := (payloadGet sess.payload ("history")).getD []
  let api := call_my_ai_api modelReady prompt outcomes
  let r := api.reply
  if errorFlagged r then
    ⟨u, sess, cache, r, 0, false, false⟩
  else
    let deb := if u.is_premium = false then decrement_ai_limit now u else (u, false)
    let attempts : Nat := if u.is_premium = false then 1 else 0
    let remaining := if deb.2 then u.ai_limit_remaining - 1 else u.ai_limit_remaining
    let reply :=
      if u.is_premium = false then
        r ++ remainingPreamble ++ (toString remaining).data ++ ("/10</i>").data
      else r
    let hist0 := history ++ [(true, prompt), (false, r)]
    let hist := if hist0.length > 8 then hist0.drop (hist0.length - 8) else hist0
    let sess2 : Session := { sess with payload := payloadSet sess.payload ("history") hist }
    let cache2 := cacheSet cache (cacheKey prompt) r
    ⟨deb.1, sess2, cache2, reply, attempts, deb.2, false⟩

/-- `process_ai_request_task` (`ai_chat.py` lines 216-308): on a cache hit
with a truthy (non-empty) value the task replies from the cache and stops —
no user fetch, no adapter call, no debit, no cache write; otherwise it runs
the miss body. -/
def process_ai_request_task (now : Int) (prompt : List Char) (sess : Session)
    (u : UserRec) (cache : Cache) (modelReady : Bool)
    (outcomes : Nat → AttemptOutcome) : TaskResult :=
  match cacheGet cache (cacheKey prompt) with
  | some v =>
      if v ≠ [] then ⟨u, sess, cache, v ++ cachedSuffix, 0, false, true⟩
      else processAiMiss now prompt sess u cache modelReady outcomes
  | none => processAiMiss now prompt sess u cache modelReady outcomes

/-!
Dispatch Router: the ordered registration of message handlers in
`bot/handlers/__init__.py` (routers are included in the order stop/menu,
user start, admin, payment, AI chat, PDF search, unknown text) with each
module's own decorator order.  aiogram dispatches a message to the first
registered handler whose filters all accept it.
-/

/-- The shape of an incoming message. -/
inductive EventKind where
  | text
  | photo
deriving DecidableEq, Repr

structure Event where
  kind : EventKind
  text : List Char
deriving DecidableEq

/-- aiogram `Command("name")`: a text message `/name` or `/name args`. -/
def isCmd (name : List Char) (e : Event) : Bool :=
  e.kind = EventKind.text &&
    (e.text == ([Char.ofNat 47] ++ name) ||
      startsWithList ([Char.ofNat 47] ++ name ++ [' ']) e.text)

/-- The handlers reachable by a plain message, one per registered
`@router.message` decorator relevant to dispatch. -/
inductive HandlerId where
  | stopCmd
  | startCmd
  | changeClassCmd
  | adminUpgradeUser
  | adminEndPlan
  | adminExtendLimit
  | adminStats
  | adminDeletePdf
  | adminBroadcastCmd
  | adminBroadcastBody
  | payUpgradeCmd
  | payPremiumButton
  | payScreenshotPhoto
  | payScreenshotOther
  | payStatusCmd
  | aiStartCmd
  | aiStartButton
  | aiPromptText
  | searchStartCmd
  | searchStartButton
  | searchQueryText
  | unknownText
deriving DecidableEq, Repr

/-- One registered rule: the predicate receives the event, the sender's
session state, and whether the sender is the admin (the admin router filters
every message through `AdminFilter`). -/
structure Rule where
  accepts : Event → SessionState → Bool → Bool
  handler : HandlerId

/-- The registration order of `bot/handlers/__init__.py` combined with the
decorator order inside each module.  `user_stop_menu.router` comes first and
its only message handler is `Command("stop")` with no state filter;
state-scoped handlers (`UserFlow.AwaitingAIPrompt` etc.) appear later. -/
def registeredRules : List Rule := [
  ⟨fun e _ _ => isCmd ("stop").data e, .stopCmd⟩,
  ⟨fun e _ _ => isCmd ("start").data e, .startCmd⟩,
  ⟨fun e _ _ => isCmd ("changeclass").data e, .changeClassCmd⟩,
  ⟨fun e _ a => a && isCmd ("upgradeuser").data e, .adminUpgradeUser⟩,
  ⟨fun e _ a => a && isCmd ("endplan").data e, .adminEndPlan⟩,
  ⟨fun e _ a => a && isCmd ("extendlimit").data e, .adminExtendLimit⟩,
  ⟨fun e _ a => a && isCmd ("stats").data e, .adminStats⟩,
  ⟨fun e _ a => a && isCmd ("deletepdf").data e, .adminDeletePdf⟩,
  ⟨fun e _ a => a && isCmd ("broadcast").data e, .adminBroadcastCmd⟩,
  ⟨fun _ s a => a && s = SessionState.AwaitingBroadcastMessage, .adminBroadcastBody⟩,
  ⟨fun e _ _ => isCmd ("upgrade").data e, .payUpgradeCmd⟩,
  ⟨fun e _ _ => e.kind = EventKind.text && e.text == ("💎 Access premium content").data, .payPremiumButton⟩,
  ⟨fun e s _ => s = SessionState.AwaitingScreenshot && e.kind = EventKind.photo, .payScreenshotPhoto⟩,
  ⟨fun e s _ => s = SessionState.AwaitingScreenshot && !(e.kind = EventKind.photo : Bool), .payScreenshotOther⟩,
  ⟨fun e s _ => isCmd ("paymentstatus").data e && s = SessionState.Idle, .payStatusCmd⟩,
  ⟨fun e _ _ => isCmd ("ai").data e, .aiStartCmd⟩,
  ⟨fun e _ _ => e.kind = EventKind.text && e.text == ("💬 Chat with Ai").data, .aiStartButton⟩,
  ⟨fun e s _ => s = SessionState.AwaitingAIPrompt && !(isCmd ("stop").data e), .aiPromptText⟩,
  ⟨fun e _ _ => isCmd ("search").data e, .searchStartCmd⟩,
  ⟨fun e _ _ => e.kind = EventKind.text && e.text == ("🔎 Search for pdf").data, .searchStartButton⟩,
  ⟨fun _ s _ => s = SessionState.AwaitingSearchQuery, .searchQueryText⟩,
  ⟨fun e s _ => s = SessionState.Idle && e.kind = EventKind.text, .unknownText⟩]

/-- The router evaluates predicates in registration order and dispatches to
the first match; if none matches the event is dropped by the final
catch-alls (modelled as `none`). -/
def dispatch : List Rule → Event → SessionState → Bool → Option HandlerId
  | [], _, _, _ => none
  | r :: rest, e, s, a =>
      if r.accepts e s a then some r.handler else dispatch rest e s a

/-!
Formalization of the spec's phrase "differ only in casing, leading/trailing
whitespace, or trailing punctuation" (used to state C4 exactly as claimed),
and decidable head/end conditions used by the amended statement.
-/

/-- Modelled from the spec: punctuation characters as in the phrase
"two prompts differing only by trailing punctuation". -/
def isPunctChar (c : Char) : Bool :=
  c = '.' || c = ',' || c = '!' || c = '?' || c = ';' || c = ':'

/-- Removes leading punctuation characters. -/
def dropLeadingPunct : List Char → List Char
  | [] => []
  | c :: t => if isPunctChar c then dropLeadingPunct t else c :: t

/-- Modelled from the spec: removes trailing punctuation characters. -/
def stripTrailingPunct (l : List Char) : List Char :=
  (dropLeadingPunct l.reverse).reverse

/-- Modelled from the spec: two prompts "differ only in casing,
leading/trailing whitespace, or trailing punctuation (within the truncation
length)" when they are at most 100 characters long and agree after
case-folding, stripping whitespace and dropping trailing punctuation. -/
def specEquivPrompts (x y : List Char) : Prop :=
  x.length ≤ 100 ∧ y.length ≤ 100 ∧
    stripTrailingPunct (pyStrip (pyLower x)) = stripTrailingPunct (pyStrip (pyLower y))

/-- Decidable check that a list is empty or starts with a non-whitespace
character. -/
def headNotSpace : List Char → Bool
  | [] => true
  | c :: _ => !isPySpace c

theorem headNotSpace_spec {l : List Char} (h : headNotSpace l = true) :
    ∀ c t, l = c :: t → isPySpace c = false := by
  intro c t hl
  subst hl
  simpa [headNotSpace] using h

theorem wsOnly_pyLower {w : List Char} (hw : wsOnly w) : wsOnly (pyLower w) := by
  intro c hc
  unfold pyLower at hc
  rcases List.mem_map.mp hc with ⟨d, hd, hcd⟩
  rw [← hcd, isPySpace_pyToLower]
  exact hw d hd

theorem applyDebits_nonneg (ops : List DebitOp) :
    ∀ u : UserRec, 0 ≤ u.ai_limit_remaining → 0 ≤ u.pdf_downloads_remaining →
      0 ≤ (applyDebits ops u).ai_limit_remaining ∧
      0 ≤ (applyDebits ops u).pdf_downloads_remaining := by
  induction ops with
  | nil => intro u h1 h2; exact ⟨h1, h2⟩
  | cons op rest ih =>
      intro u h1 h2
      show 0 ≤ (applyDebits rest (applyDebit u op)).ai_limit_remaining ∧
        0 ≤ (applyDebits rest (applyDebit u op)).pdf_downloads_remaining
      apply ih
      · cases op with
        | ai now =>
            simp only [applyDebit, decrement_ai_limit]
            split
            · rename_i hgt; simp; omega
            · exact h1
        | pdf now =>
            simp only [applyDebit, decrement_pdf_download_limit]
            split
            · simp; omega
            · exact h1
      · cases op with
        | ai now =>
            simp only [applyDebit, decrement_ai_limit]
            split
            · simp; omega
            · exact h2
        | pdf now =>
            simp only [applyDebit, decrement_pdf_download_limit]
            split
            · rename_i hgt; simp; omega
            · exact h2

/-- C1: for every user and each resource kind (ai, download), the debit
operation (`decrement_ai_limit` / `decrement_pdf_download_limit`) either
decrements the counter by exactly 1 and returns true, or returns false
leaving the row unchanged; starting from non-negative counters, the counters
stay non-negative under any sequence of debits (any interleaving of the
atomic conditional updates). -/
theorem C1_debit_atomic_never_negative (u : UserRec) (now : Int)
    (h_ai : 0 ≤ u.ai_limit_remaining) (h_pdf : 0 ≤ u.pdf_downloads_remaining)
    (ops : List DebitOp) :
    ((decrement_ai_limit now u).2 = true →
      (decrement_ai_limit now u).1.ai_limit_remaining = u.ai_limit_remaining - 1 ∧
      (decrement_ai_limit now u).1.pdf_downloads_remaining = u.pdf_downloads_remaining ∧
      0 < u.ai_limit_remaining) ∧
    ((decrement_ai_limit now u).2 = false → (decrement_ai_limit now u).1 = u) ∧
    ((decrement_pdf_download_limit now u).2 = true →
      (decrement_pdf_download_limit now u).1.pdf_downloads_remaining =
        u.pdf_downloads_remaining - 1 ∧
      (decrement_pdf_download_limit now u).1.ai_limit_remaining = u.ai_limit_remaining ∧
      0 < u.pdf_downloads_remaining) ∧
    ((decrement_pdf_download_limit now u).2 = false →
      (decrement_pdf_download_limit now u).1 = u) ∧
    0 ≤ (applyDebits ops u).ai_limit_remaining ∧
    0 ≤ (applyDebits ops u).pdf_downloads_remaining := by
  refine ⟨?_, ?_, ?_, ?_, ?_⟩
  · intro hs
    unfold decrement_ai_limit at hs ⊢
    split at hs
    · rename_i hgt
      rw [if_pos hgt]
      exact ⟨rfl, rfl, hgt⟩
    · simp at hs
  · intro hf
    unfold decrement_ai_limit at hf ⊢
    split at hf
    · simp at hf
    · rename_i hng
      rw [if_neg hng]
  · intro hs
    unfold decrement_pdf_download_limit at hs ⊢
    split at hs
    · rename_i hgt
      rw [if_pos hgt]
      exact ⟨rfl, rfl, hgt⟩
    · simp at hs
  · intro hf
    unfold decrement_pdf_download_limit at hf ⊢
    split at hf
    · simp at hf
    · rename_i hng
      rw [if_neg hng]
  · exact applyDebits_nonneg ops u h_ai h_pdf

/-- Witness for C1 at a concrete row and a concrete interleaving of three
debits. -/
theorem C1_debit_atomic_never_negative_witness :
    0 ≤ ({ user_id := 1, ai_limit_remaining := 1 } : UserRec).ai_limit_remaining ∧
    0 ≤ ({ user_id := 1, ai_limit_remaining := 1 } : UserRec).pdf_downloads_remaining ∧
    (0 ≤ (applyDebits [DebitOp.ai 5, DebitOp.ai 6, DebitOp.pdf 7]
        ({ user_id := 1, ai_limit_remaining := 1 } : UserRec)).ai_limit_remaining ∧
      0 ≤ (applyDebits [DebitOp.ai 5, DebitOp.ai 6, DebitOp.pdf 7]
        ({ user_id := 1, ai_limit_remaining := 1 } : UserRec)).pdf_downloads_remaining) :=
  ⟨by decide, by decide,
    (C1_debit_atomic_never_negative { user_id := 1, ai_limit_remaining := 1 } 3
      (by decide) (by decide) [DebitOp.ai 5, DebitOp.ai 6, DebitOp.pdf 7]).2.2.2.2⟩

theorem attemptLoop_zero_spec (outcomes : Nat → AttemptOutcome) :
    1 ≤ (attemptLoop outcomes 0).attemptsMade ∧
    (attemptLoop outcomes 0).attemptsMade ≤ 3 ∧
    (attemptLoop outcomes 0).sleeps =
      (List.range ((attemptLoop outcomes 0).attemptsMade - 1)).map (fun i => 2 ^ i) ∧
    (∀ m, (attemptLoop outcomes 0).exit = LoopExit.errored m →
      (attemptLoop outcomes 0).attemptsMade = 3) ∧
    ((attemptLoop outcomes 0).exit = LoopExit.timedOut →
      (attemptLoop outcomes 0).attemptsMade = 3) := by
  rcases h0 : outcomes 0 with t0 | _ | _ | m0 <;>
  rcases h1 : outcomes 1 with t1 | _ | _ | m1 <;>
  rcases h2 : outcomes 2 with t2 | _ | _ | m2 <;>
    simp [attemptLoop, h0, h1, h2] <;> decide

/-- An oracle under which every attempt raises an exception whose message
marks a safety/policy rejection. -/
def rejectedEveryTime : Nat → AttemptOutcome :=
  fun _ => .failure ("Content blocked due to safety").data

/-- Counterexample to C2: under `rejectedEveryTime` the adapter classifies
the failure as a policy rejection, yet three attempts were performed — the
retry loop of `call_my_ai_api` catches every exception and only classifies
the error after the retries are exhausted, so the observed attempt count for
a rejection is 3, not 1. -/
theorem C2_rejected_is_retried_counterexample :
    (call_my_ai_api true ("hello").data rejectedEveryTime).classification =
      ApiClass.rejected ∧
    (call_my_ai_api true ("hello").data rejectedEveryTime).attemptsMade = 3 ∧
    ¬ ((call_my_ai_api true ("hello").data rejectedEveryTime).attemptsMade = 1) := by
  refine ⟨?_, ?_, ?_⟩ <;>
    simp [call_my_ai_api, attemptLoop, rejectedEveryTime] <;> decide

/-- C2 (amended): `call_my_ai_api` makes between 1 and 3 attempts and sleeps
`2 ** attempt` seconds (1s, then 2s) before each retry, for timeouts,
transient failures, empty responses and policy rejections alike; a
`rejected` classification is produced only after all 3 attempts have failed
(observed attempt count 3, not 1), and likewise a final timeout is reported
only after 3 attempts. -/
theorem C2_retry_policy_amended (prompt : List Char) (outcomes : Nat → AttemptOutcome) :
    1 ≤ (call_my_ai_api true prompt outcomes).attemptsMade ∧
    (call_my_ai_api true prompt outcomes).attemptsMade ≤ 3 ∧
    (call_my_ai_api true prompt outcomes).sleeps =
      (List.range ((call_my_ai_api true prompt outcomes).attemptsMade - 1)).map
        (fun i => 2 ^ i) ∧
    ((call_my_ai_api true prompt outcomes).classification = ApiClass.rejected →
      (call_my_ai_api true prompt outcomes).attemptsMade = 3) ∧
    ((call_my_ai_api true prompt outcomes).classification = ApiClass.timedOut →
      (call_my_ai_api true prompt outcomes).attemptsMade = 3) := by
  obtain ⟨ha, hb, hc, hd, he⟩ := attemptLoop_zero_spec outcomes
  rcases hexit : (attemptLoop outcomes 0).exit with t | _ | m
  · simp [call_my_ai_api, hexit, ha, hb, hc]
  · have h3 := he hexit
    simp [call_my_ai_api, hexit, ha, hb, hc, h3]
  · have h3 := hd m hexit
    simp only [call_my_ai_api]
    rw [if_neg (by decide)]
    simp only [hexit]
    split
    · simp [ha, hb, hc, h3]
    · split
      · simp [ha, hb, hc, h3]
      · simp [ha, hb, hc, h3]

/-- Witness for the amended C2 at a concrete rejection scenario: the
rejected classification is observed together with an attempt count of 3. -/
theorem C2_retry_policy_amended_witness :
    (call_my_ai_api true ("hi").data rejectedEveryTime).classification =
      ApiClass.rejected ∧
    (call_my_ai_api true ("hi").data rejectedEveryTime).attemptsMade = 3 :=
  ⟨by simp [call_my_ai_api, attemptLoop, rejectedEveryTime] <;> decide,
   (C2_retry_policy_amended ("hi").data rejectedEveryTime).2.2.2.1
     (by simp [call_my_ai_api, attemptLoop, rejectedEveryTime] <;> decide)⟩

/-- C3: for a free user with `ai_limit_remaining = 1` whose prompt misses the
cache and whose AI call returns a non-error reply, `process_ai_request_task`
performs exactly one (successful) debit leaving the counter at 0 and writes
the response to the cache; any subsequent run for the identical prompt — for
the same or any other user, whatever its clock, session, model state or
oracle — is served from the cache and performs no debit and no user
mutation. -/
theorem C3_one_debit_then_cache_hit (now : Int) (prompt : List Char) (sess : Session)
    (u : UserRec) (cache : Cache) (modelReady : Bool) (outcomes : Nat → AttemptOutcome)
    (hprem : u.is_premium = false)
    (hai : u.ai_limit_remaining = 1)
    (hmiss : cacheGet cache (cacheKey prompt) = none)
    (hok : errorFlagged (call_my_ai_api modelReady prompt outcomes).reply = false)
    (hne : (call_my_ai_api modelReady prompt outcomes).reply ≠ []) :
    (process_ai_request_task now prompt sess u cache modelReady outcomes).user.ai_limit_remaining = 0 ∧
    (process_ai_request_task now prompt sess u cache modelReady outcomes).debitAttempts = 1 ∧
    (process_ai_request_task now prompt sess u cache modelReady outcomes).debitSucceeded = true ∧
    cacheGet (process_ai_request_task now prompt sess u cache modelReady outcomes).cache
      (cacheKey prompt) = some (call_my_ai_api modelReady prompt outcomes).reply ∧
    ∀ (now2 : Int) (sess2 : Session) (u2 : UserRec) (modelReady2 : Bool)
      (outcomes2 : Nat → AttemptOutcome),
      (process_ai_request_task now2 prompt sess2 u2
        (process_ai_request_task now prompt sess u cache modelReady outcomes).cache
        modelReady2 outcomes2).user = u2 ∧
      (process_ai_request_task now2 prompt sess2 u2
        (process_ai_request_task now prompt sess u cache modelReady outcomes).cache
        modelReady2 outcomes2).debitAttempts = 0 ∧
      (process_ai_request_task now2 prompt sess2 u2
        (process_ai_request_task now prompt sess u cache modelReady outcomes).cache
        modelReady2 outcomes2).servedFromCache = true := by
  have hrun : process_ai_request_task now prompt sess u cache modelReady outcomes =
      processAiMiss now prompt sess u cache modelReady outcomes := by
    unfold process_ai_request_task
    rw [hmiss]
  have hcache2 : (processAiMiss now prompt sess u cache modelReady outcomes).cache =
      cacheSet cache (cacheKey prompt) (call_my_ai_api modelReady prompt outcomes).reply := by
    simp [processAiMiss, hok]
  have hget2 : cacheGet (cacheSet cache (cacheKey prompt)
      (call_my_ai_api modelReady prompt outcomes).reply) (cacheKey prompt) =
      some (call_my_ai_api modelReady prompt outcomes).reply := by
    simp [cacheGet, cacheSet, List.find?]
  refine ⟨?_, ?_, ?_, ?_, ?_⟩
  · rw [hrun]
    simp [processAiMiss, hok, hprem, decrement_ai_limit, hai]
  · rw [hrun]
    simp [processAiMiss, hok, hprem]
  · rw [hrun]
    simp [processAiMiss, hok, hprem, decrement_ai_limit, hai]
  · rw [hrun, hcache2, hget2]
  · intro now2 sess2 u2 modelReady2 outcomes2
    rw [hrun, hcache2]
    unfold process_ai_request_task
    rw [hget2]
    simp [hne]

def c3prompt : List Char := ("What is gravity?").data

def c3outcomes : Nat → AttemptOutcome := fun _ => .success ("Gravity is a force").data

def c3user : UserRec := { user_id := 9, is_premium := false, ai_limit_remaining := 1 }

def c3user2 : UserRec := { user_id := 10, is_premium := false, ai_limit_remaining := 5 }

def c3sess : Session := ⟨SessionState.AwaitingAIPrompt, []⟩

/-- Witness for C3 at a concrete scenario: the first run debits the counter
from 1 to 0, and a second run of the identical prompt for a different user
is served from the cache with no debit. -/
theorem C3_one_debit_then_cache_hit_witness :
    (process_ai_request_task 0 c3prompt c3sess c3user [] true c3outcomes).user.ai_limit_remaining = 0 ∧
    (process_ai_request_task 0 c3prompt c3sess c3user [] true c3outcomes).debitAttempts = 1 ∧
    (process_ai_request_task 1 c3prompt c3sess c3user2
      (process_ai_request_task 0 c3prompt c3sess c3user [] true c3outcomes).cache
      true c3outcomes).user = c3user2 ∧
    (process_ai_request_task 1 c3prompt c3sess c3user2
      (process_ai_request_task 0 c3prompt c3sess c3user [] true c3outcomes).cache
      true c3outcomes).debitAttempts = 0 ∧
    (process_ai_request_task 1 c3prompt c3sess c3user2
      (process_ai_request_task 0 c3prompt c3sess c3user [] true c3outcomes).cache
      true c3outcomes).servedFromCache = true := by
  have h := C3_one_debit_then_cache_hit 0 c3prompt c3sess c3user [] true c3outcomes
    (by decide) (by decide) (by decide)
    (by simp [call_my_ai_api, attemptLoop, c3outcomes] <;> decide)
    (by simp [call_my_ai_api, attemptLoop, c3outcomes] <;> decide)
  have h2 := h.2.2.2.2 1 c3sess c3user2 true c3outcomes
  exact ⟨h.1, h.2.1, h2.1, h2.2.1, h2.2.2⟩

/-- Counterexample to C4: the prompts `hi` and `hi!` differ only by trailing
punctuation (within the truncation length) in the sense of the spec, yet the
normalization `lower().strip()[:100]` keeps the `!`, so they produce
different cache keys and hit different entries. -/
theorem C4_trailing_punct_counterexample :
    specEquivPrompts ("hi").data ("hi!").data ∧
    ¬ (normalizeKey ("hi").data = normalizeKey ("hi!").data) ∧
    ¬ (cacheKey ("hi").data = cacheKey ("hi!").data) := by
  refine ⟨⟨?_, ?_, ?_⟩, ?_, ?_⟩ <;> decide

/-- C4 (amended): two prompts that differ only in casing or in
leading/trailing whitespace map to the same cache key — the prompts are
written as a whitespace padding around a core, the cores agreeing after
case-folding and carrying no whitespace at either end.  Trailing punctuation
is not normalized away (see the counterexample). -/
theorem C4_case_ws_same_key (u a v p b q : List Char)
    (hu : wsOnly u) (hv : wsOnly v) (hp : wsOnly p) (hq : wsOnly q)
    (hab : pyLower a = pyLower b)
    (hhead : headNotSpace (pyLower a) = true)
    (hlast : headNotSpace ((pyLower a).reverse) = true) :
    cacheKey (u ++ a ++ v) = cacheKey (p ++ b ++ q) := by
  unfold cacheKey normalizeKey
  have e1 : pyLower (u ++ a ++ v) = pyLower u ++ pyLower a ++ pyLower v := by
    simp [pyLower]
  have e2 : pyLower (p ++ b ++ q) = pyLower p ++ pyLower b ++ pyLower q := by
    simp [pyLower]
  have hheadb : headNotSpace (pyLower b) = true := hab ▸ hhead
  have hlastb : headNotSpace ((pyLower b).reverse) = true := hab ▸ hlast
  rw [e1, e2,
    pyStrip_padded (pyLower u) (pyLower a) (pyLower v)
      (wsOnly_pyLower hu) (wsOnly_pyLower hv)
      (headNotSpace_spec hhead) (headNotSpace_spec hlast),
    pyStrip_padded (pyLower p) (pyLower b) (pyLower q)
      (wsOnly_pyLower hp) (wsOnly_pyLower hq)
      (headNotSpace_spec hheadb) (headNotSpace_spec hlastb),
    hab]

/-- Witness for the amended C4: a leading-space, mixed-case prompt and a
differently-cased, trailing-space prompt share one cache key. -/
theorem C4_case_ws_same_key_witness :
    pyLower ("Hi").data = pyLower ("hI").data ∧
    cacheKey ((" ").data ++ ("Hi").data ++ ([] : List Char)) =
      cacheKey (([] : List Char) ++ ("hI").data ++ ("  ").data) :=
  ⟨by decide,
   C4_case_ws_same_key (" ").data ("Hi").data [] [] ("hI").data ("  ").data
     (by unfold wsOnly; decide) (by unfold wsOnly; decide)
     (by unfold wsOnly; decide) (by unfold wsOnly; decide)
     (by decide) (by decide) (by decide)⟩

def c5input : List Char := List.replicate 99 'a' ++ [' ', 'b']

/-- Counterexample to C5: for the 101-character prompt of 99 `a`s, a space
and a `b`, normalization truncates right after the space, so
`normalize(x)` ends in whitespace and a second application strips it:
`normalize(normalize(x)) ≠ normalize(x)`. -/
theorem C5_idempotence_counterexample :
    ¬ (normalizeKey (normalizeKey c5input) = normalizeKey c5input) := by
  decide

/-- C5 (amended): the cache-key normalization is idempotent on every prompt
of length at most 100 (where the final truncation is the identity); for
longer prompts the truncation can expose trailing whitespace that a second
strip removes, breaking idempotence (see the counterexample). -/
theorem C5_normalize_idempotent_le100 (x : List Char) (hx : x.length ≤ 100) :
    normalizeKey (normalizeKey x) = normalizeKey x := by
  have hlen : (pyStrip (pyLower x)).length ≤ 100 := by
    calc (pyStrip (pyLower x)).length
        ≤ (pyLower x).length := length_pyStrip _
      _ = x.length := List.length_map _ _
      _ ≤ 100 := hx
  have h1 : normalizeKey x = pyStrip (pyLower x) := by
    unfold normalizeKey
    exact List.take_of_length_le hlen
  rw [h1]
  unfold normalizeKey
  rw [pyLower_pyStrip_pyLower, pyStrip_idem]
  exact List.take_of_length_le hlen

/-- Witness for the amended C5 at a concrete short prompt. -/
theorem C5_normalize_idempotent_le100_witness :
    ("  Hello World!  ").data.length ≤ 100 ∧
    normalizeKey (normalizeKey ("  Hello World!  ").data) =
      normalizeKey ("  Hello World!  ").data :=
  ⟨by decide, C5_normalize_idempotent_le100 ("  Hello World!  ").data (by decide)⟩

/-- C6: for a user whose session state is `AwaitingAIPrompt`, any message
matching the escape command `/stop` is dispatched to the stop handler
(`handle_stop_command`), not to the state-scoped AI-prompt handler
(`handle_ai_prompt`): the stop rule is registered before every state-scoped
rule and the router dispatches to the first match in registration order. -/
theorem C6_stop_beats_ai_prompt (e : Event) (a : Bool)
    (h : isCmd ("stop").data e = true) :
    dispatch registeredRules e SessionState.AwaitingAIPrompt a =
      some HandlerId.stopCmd ∧
    HandlerId.stopCmd ≠ HandlerId.aiPromptText := by
  constructor
  · simp [dispatch, registeredRules, h]
  · decide

/-- Witness for C6: the literal message `/stop` sent by a non-admin user in
`AwaitingAIPrompt` goes to the stop handler. -/
theorem C6_stop_beats_ai_prompt_witness :
    isCmd ("stop").data ⟨EventKind.text, ("/stop").data⟩ = true ∧
    dispatch registeredRules ⟨EventKind.text, ("/stop").data⟩
      SessionState.AwaitingAIPrompt false = some HandlerId.stopCmd :=
  ⟨by decide,
   (C6_stop_beats_ai_prompt ⟨EventKind.text, ("/stop").data⟩ false (by decide)).1⟩

def c7premiumUser : UserRec :=
  { user_id := 42, is_premium := true, premium_expiry_date := some 100,
    ai_limit_remaining := 3, pdf_downloads_remaining := 7 }

/-- Counterexample to C7: for a premium user whose plan has not expired
(clock 50, expiry 100) and who has 7 downloads left, the daily scheduled run
resets the AI counter to the premium ceiling 100 but leaves the download
counter at 7 — it is not reset to the premium download ceiling 50 on the
daily schedule. -/
theorem C7_premium_pdf_not_reset_counterexample :
    (run_daily_tasks_user 50 c7premiumUser).ai_limit_remaining = 100 ∧
    (run_daily_tasks_user 50 c7premiumUser).pdf_downloads_remaining = 7 ∧
    ¬ ((run_daily_tasks_user 50 c7premiumUser).pdf_downloads_remaining = 50) := by
  decide

/-- C7 (amended): the daily scheduled run resets only the AI counter to its
tier-dependent ceiling (100 premium / 10 free); for any user it does not
touch the download counter unless the user is being downgraded on expiry or
is a free user whose 30-day window has elapsed.  In particular a premium
user's download counter is never reset by the daily schedule — the premium
download ceiling (50) is applied only by `upgrade_user_to_premium`. -/
theorem C7_daily_reset_ai_only (now : Int) (u : UserRec)
    (hne : isExpiredPremium now u = false)
    (hnf : isExpiredFree now u = false) :
    (run_daily_tasks_user now u).ai_limit_remaining =
      (if u.is_premium then 100 else 10) ∧
    (run_daily_tasks_user now u).pdf_downloads_remaining =
      u.pdf_downloads_remaining ∧
    (upgrade_user_to_premium now 30 u).pdf_downloads_remaining = 50 := by
  simp [run_daily_tasks_user, hne, hnf, reset_daily_limits_row,
    upgrade_user_to_premium]

/-- Witness for the amended C7 at the concrete premium user. -/
theorem C7_daily_reset_ai_only_witness :
    isExpiredPremium 50 c7premiumUser = false ∧
    isExpiredFree 50 c7premiumUser = false ∧
    ((run_daily_tasks_user 50 c7premiumUser).ai_limit_remaining =
        (if c7premiumUser.is_premium then 100 else 10) ∧
      (run_daily_tasks_user 50 c7premiumUser).pdf_downloads_remaining =
        c7premiumUser.pdf_downloads_remaining ∧
      (upgrade_user_to_premium 50 30 c7premiumUser).pdf_downloads_remaining = 50) :=
  ⟨by decide, by decide, C7_daily_reset_ai_only 50 c7premiumUser (by decide) (by decide)⟩

def c8sess : Session :=
  ⟨SessionState.AwaitingScreenshot, [(("history" : String), [(true, ("leftover").data)])]⟩

def c8user : UserRec :=
  { user_id := 7, selected_class := "class9", is_premium := false,
    pdf_downloads_remaining := 5 }

/-- Counterexample to C8: a user carrying a non-empty payload written by an
earlier flow who successfully enters the search flow through `start_search`
ends up in `AwaitingSearchQuery` (a state other than Idle) with the prior
payload intact — `start_search` calls only `state.set_state` and never
clears the payload. -/
theorem C8_search_keeps_stale_payload_counterexample :
    (start_search c8sess (some c8user)).1.state = SessionState.AwaitingSearchQuery ∧
    ¬ ((start_search c8sess (some c8user)).1.state = SessionState.Idle) ∧
    (start_search c8sess (some c8user)).1.payload = c8sess.payload ∧
    ¬ (c8sess.payload = ([] : Payload)) := by
  refine ⟨?_, ?_, ?_, ?_⟩ <;> decide

/-- C8 (amended): entering `AwaitingAIPrompt` through `start_ai_chat` does
clear any prior payload first (the new payload holds only the fresh empty
history), but entering `AwaitingSearchQuery` through `start_search` leaves
the prior transient payload untouched, so the search flow can observe
leftover payload data from a previous, unrelated flow. -/
theorem C8_payload_clearing_amended (sess : Session) (u : UserRec)
    (hai : ¬ (u.is_premium = false ∧ u.ai_limit_remaining ≤ 0))
    (hclass : ¬ (u.selected_class = "none"))
    (hpdf : ¬ (u.is_premium = false ∧ u.pdf_downloads_remaining ≤ 0)) :
    ((start_ai_chat sess (some u)).1.state = SessionState.AwaitingAIPrompt ∧
      (start_ai_chat sess (some u)).1.payload =
        [(("history" : String), ([] : List HistEntry))]) ∧
    ((start_search sess (some u)).1.state = SessionState.AwaitingSearchQuery ∧
      (start_search sess (some u)).1.payload = sess.payload) := by
  constructor
  · simp only [start_ai_chat]
    rw [if_neg hai]
    exact ⟨rfl, rfl⟩
  · simp only [start_search]
    rw [if_neg hclass, if_neg hpdf]
    exact ⟨rfl, rfl⟩

/-- Witness for the amended C8 at the concrete stale session: AI-chat entry
clears the leftover payload, search entry keeps it. -/
theorem C8_payload_clearing_amended_witness :
    ¬ (c8user.is_premium = false ∧ c8user.ai_limit_remaining ≤ 0) ∧
    ¬ (c8user.selected_class = "none") ∧
    (((start_ai_chat c8sess (some c8user)).1.state = SessionState.AwaitingAIPrompt ∧
        (start_ai_chat c8sess (some c8user)).1.payload =
          [(("history" : String), ([] : List HistEntry))]) ∧
      ((start_search c8sess (some c8user)).1.state = SessionState.AwaitingSearchQuery ∧
        (start_search c8sess (some c8user)).1.payload = c8sess.payload)) :=
  ⟨by decide, by decide,
   C8_payload_clearing_amended c8sess c8user (by decide) (by decide) (by decide)⟩

/-- C9: a non-premium user with `ai_limit_remaining <= 0` attempting to
enter the AI-chat flow is refused by `start_ai_chat`: the session ends in
Idle with an empty payload (`AwaitingAIPrompt` is never set), the user row
is returned untouched, and no quota debit occurs (the refusing path contains
no decrement call). -/
theorem C9_ai_entry_refused_at_zero (sess : Session) (u : UserRec)
    (hprem : u.is_premium = false) (hai : u.ai_limit_remaining ≤ 0) :
    (start_ai_chat sess (some u)).1.state = SessionState.Idle ∧
    ¬ ((start_ai_chat sess (some u)).1.state = SessionState.AwaitingAIPrompt) ∧
    (start_ai_chat sess (some u)).1.payload = ([] : Payload) ∧
    (start_ai_chat sess (some u)).2.1 = u ∧
    (start_ai_chat sess (some u)).2.2 = StartOutcome.limitReached := by
  simp only [start_ai_chat]
  rw [if_pos ⟨hprem, hai⟩]
  exact ⟨rfl, by simp [stateClear], rfl, rfl, rfl⟩

/-- Witness for C9 at a concrete exhausted free user. -/
theorem C9_ai_entry_refused_at_zero_witness :
    ({ user_id := 11, is_premium := false, ai_limit_remaining := 0 } : UserRec).is_premium = false ∧
    ({ user_id := 11, is_premium := false, ai_limit_remaining := 0 } : UserRec).ai_limit_remaining ≤ 0 ∧
    ((start_ai_chat c8sess (some { user_id := 11, is_premium := false, ai_limit_remaining := 0 })).1.state =
        SessionState.Idle ∧
      ¬ ((start_ai_chat c8sess (some { user_id := 11, is_premium := false, ai_limit_remaining := 0 })).1.state =
        SessionState.AwaitingAIPrompt) ∧
      (start_ai_chat c8sess (some { user_id := 11, is_premium := false, ai_limit_remaining := 0 })).1.payload =
        ([] : Payload) ∧
      (start_ai_chat c8sess (some { user_id := 11, is_premium := false, ai_limit_remaining := 0 })).2.1 =
        { user_id := 11, is_premium := false, ai_limit_remaining := 0 } ∧
      (start_ai_chat c8sess (some { user_id := 11, is_premium := false, ai_limit_remaining := 0 })).2.2 =
        StartOutcome.limitReached) :=
  ⟨by decide, by decide,
   C9_ai_entry_refused_at_zero c8sess
     { user_id := 11, is_premium := false, ai_limit_remaining := 0 }
     (by decide) (by decide)⟩

/-- C10: for a premium user, both the AI background task
(`process_ai_request_task`) and the PDF delivery handler (`send_pdf_link`)
leave the user row — in particular both quota counters — unchanged and
invoke no decrement: the decrement calls are guarded by
`if not user.is_premium`, so premium usage is unmetered. -/
theorem C10_premium_unmetered (now : Int) (prompt : List Char) (sess : Session)
    (u : UserRec) (cache : Cache) (modelReady : Bool)
    (outcomes : Nat → AttemptOutcome) (link : Option (List Char))
    (hprem : u.is_premium = true) :
    (process_ai_request_task now prompt sess u cache modelReady outcomes).user = u ∧
    (process_ai_request_task now prompt sess u cache modelReady outcomes).user.ai_limit_remaining =
      u.ai_limit_remaining ∧
    (process_ai_request_task now prompt sess u cache modelReady outcomes).user.pdf_downloads_remaining =
      u.pdf_downloads_remaining ∧
    (process_ai_request_task now prompt sess u cache modelReady outcomes).debitAttempts = 0 ∧
    (send_pdf_link now u link).1 = u ∧
    (send_pdf_link now u link).2.1 = 0 := by
  have hne : ¬ (u.is_premium = false) := by
    rw [hprem]
    exact fun hc => Bool.true_eq_false.mp hc
  have htask : (process_ai_request_task now prompt sess u cache modelReady outcomes).user = u ∧
      (process_ai_request_task now prompt sess u cache modelReady outcomes).debitAttempts = 0 := by
    unfold process_ai_request_task
    rcases hg : cacheGet cache (cacheKey prompt) with _ | v
    · simp only [processAiMiss, hprem]
      split
      · exact ⟨rfl, rfl⟩
      · exact ⟨rfl, rfl⟩
    · by_cases hv : v ≠ []
      · simp [hv]
      · have hveq : v = [] := not_not.mp hv
        subst hveq
        simp only [ne_eq, not_true_eq_false, Bool.false_eq_true, if_false,
          processAiMiss, hprem]
        split
        · exact ⟨rfl, rfl⟩
        · exact ⟨rfl, rfl⟩
  have hsend : (send_pdf_link now u link).1 = u ∧ (send_pdf_link now u link).2.1 = 0 := by
    unfold send_pdf_link
    rw [if_neg hne]
    exact ⟨rfl, rfl⟩
  refine ⟨htask.1, ?_, ?_, htask.2, hsend.1, hsend.2⟩
  · rw [htask.1]
  · rw [htask.1]

/-- Witness for C10 at a concrete premium user: the task and the PDF
delivery leave the row unchanged and make no decrement call. -/
theorem C10_premium_unmetered_witness :
    c7premiumUser.is_premium = true ∧
    ((process_ai_request_task 0 c3prompt c3sess c7premiumUser [] true c3outcomes).user =
        c7premiumUser ∧
      (process_ai_request_task 0 c3prompt c3sess c7premiumUser [] true c3outcomes).user.ai_limit_remaining =
        c7premiumUser.ai_limit_remaining ∧
      (process_ai_request_task 0 c3prompt c3sess c7premiumUser [] true c3outcomes).user.pdf_downloads_remaining =
        c7premiumUser.pdf_downloads_remaining ∧
      (process_ai_request_task 0 c3prompt c3sess c7premiumUser [] true c3outcomes).debitAttempts = 0 ∧
      (send_pdf_link 0 c7premiumUser (some (("http://x").data))).1 = c7premiumUser ∧
      (send_pdf_link 0 c7premiumUser (some (("http://x").data))).2.1 = 0) :=
  ⟨by decide,
   C10_premium_unmetered 0 c3prompt c3sess c7premiumUser [] true c3outcomes
     (some (("http://x").data)) (by decide)⟩
